import Mathlib

/-!
Verification of the ossia asynchronous IO runtime against its specification.

The development shallowly embeds the parts of the source that the claims
touch: the endianness helpers and address classes from network.hpp and
inet_address.cpp, the reference counted coroutine frames from promise.hpp
and future.hpp, the worker event loop and schedule from io_context.cpp,
and the connect awaitable from tcp_stream.cpp. Machine integers are
modelled as Nat with explicit reduction modulo two to the width where
overflow matters. Pointers are modelled as Nat identifiers into a heap of
frames represented as a function from identifiers to frame states.
-/

namespace Ossia

/-- Embeds detail::to_network_endian for uint16 on a little endian host: the
source computes the or of value shifted right by eight and value shifted left
by eight, truncated back to sixteen bits. -/
def to_network_endian16 (value : Nat) : Nat :=
  value / 256 + value % 256 * 256

/-- Embeds detail::to_host_endian for uint16 on a little endian host; the body
is identical to the network endian conversion. -/
def to_host_endian16 (value : Nat) : Nat :=
  value / 256 + value % 256 * 256

/-- Embeds the storage of class ip_address: the tag m_is_v6 selects the active
union member. The v4 form holds the four bytes of m_addr.v4.u8 and the v6 form
holds the eight uint16 values of m_addr.v6.u16 exactly as stored in memory,
which is network endian order. -/
inductive ip_address
  | v4 (u8 : List Nat)
  | v6 (u16 : List Nat)
deriving DecidableEq

/-- Embeds the ip_address constructor taking four bytes: the bytes are stored
into m_addr.v4.u8 unchanged. -/
def ip_address.mk4 (b0 b1 b2 b3 : Nat) : ip_address :=
  ip_address.v4 [b0, b1, b2, b3]

/-- Embeds the ip_address constructor taking eight host endian uint16 groups:
each group is converted to network endian before being stored into
m_addr.v6.u16. -/
def ip_address.mk6 (g0 g1 g2 g3 g4 g5 g6 g7 : Nat) : ip_address :=
  ip_address.v6 [to_network_endian16 g0, to_network_endian16 g1,
    to_network_endian16 g2, to_network_endian16 g3, to_network_endian16 g4,
    to_network_endian16 g5, to_network_endian16 g6, to_network_endian16 g7]

/-- Embeds ip_address::operator==: compare the m_is_v6 tags, then compare the
raw words of the active union member. -/
def ip_address.beq : ip_address → ip_address → Bool
  | ip_address.v4 a, ip_address.v4 b => a == b
  | ip_address.v6 a, ip_address.v6 b => a == b
  | _, _ => false

/-- Address family constant AF_INET as used by the source on Linux. -/
def AF_INET : Nat := 2

/-- Address family constant AF_INET6 as used by the source on Linux. -/
def AF_INET6 : Nat := 10

/-- Embeds the fields of class inet_address that the claims touch: the family,
the port stored in network endian, and the raw address payload that the
constructor memcpys from the ip_address object. For the v4 family the payload
is the four bytes; for the v6 family it is the eight stored uint16 values. -/
structure inet_address where
  m_family : Nat
  m_port : Nat
  payload : List Nat
deriving DecidableEq

/-- Embeds the inet_address constructor taking an ip_address and a host endian
port: the family is AF_INET6 exactly when the address is v6, the port is
converted to network endian, and the raw address bytes are memcpyed. -/
def inet_address.mk_ip_port (ip : ip_address) (port : Nat) : inet_address :=
  match ip with
  | ip_address.v4 u8 => ⟨AF_INET, to_network_endian16 port, u8⟩
  | ip_address.v6 u16 => ⟨AF_INET6, to_network_endian16 port, u16⟩

/-- Embeds the inet_address::ip_address accessor: for the AF_INET family it
rebuilds the address from the four stored bytes; otherwise it passes the eight
stored uint16 values, which are still in network endian, back into the uint16
constructor, which converts each of them to network endian once more. -/
def inet_address.ip_address (a : inet_address) : Ossia.ip_address :=
  if a.m_family = AF_INET then
    Ossia.ip_address.mk4 (a.payload.getD 0 0) (a.payload.getD 1 0)
      (a.payload.getD 2 0) (a.payload.getD 3 0)
  else
    Ossia.ip_address.mk6 (a.payload.getD 0 0) (a.payload.getD 1 0)
      (a.payload.getD 2 0) (a.payload.getD 3 0) (a.payload.getD 4 0)
      (a.payload.getD 5 0) (a.payload.getD 6 0) (a.payload.getD 7 0)

/-- Embeds the inet_address::port accessor: the stored network endian port is
converted back to host endian. -/
def inet_address.port (a : inet_address) : Nat :=
  to_host_endian16 a.m_port

/-- Embeds the worker count computation of the io_context constructor taking a
size: count if count is nonzero, otherwise the maximum of one and the number of
logical cores reported by hardware_concurrency. -/
def io_context_worker_count_of (count cores : Nat) : Nat :=
  if count ≠ 0 then count else max 1 cores

/-- Embeds the worker count computation of the default io_context constructor:
the maximum of one and the number of logical cores. -/
def io_context_worker_count_default (cores : Nat) : Nat :=
  max 1 cores

/-- Memory and ring actions performed by the worker destructor, with the
pointer argument of each action recorded. -/
inductive DtorAction
  | mallocBuf (p : Nat)
  | queueExit (p : Nat)
  | freeBuf (p : Nat)
deriving DecidableEq

/-- Embeds the Linux branch of the io_context_worker destructor: it mallocs a
fresh uninitialised io_uring buffer, calls io_uring_queue_exit on that fresh
buffer, and frees the fresh buffer. The stored ring in m_muxer does not appear
in the body at all. -/
def worker_dtor_linux (freshBuf : Nat) : List DtorAction :=
  [DtorAction.mallocBuf freshBuf, DtorAction.queueExit freshBuf,
    DtorAction.freeBuf freshBuf]

/-- Embeds the per frame state of detail::promise_base: the non atomic uint32
reference count, whether the coroutine frame has been destroyed, the parent
pointer, the stack bottom pointer, whether the coroutine is done, and the
captured exception slot. Frames are identified by Nat identifiers. -/
structure Frame where
  refCount : Nat
  destroyed : Bool
  m_parent : Option Nat
  m_stack_bottom : Nat
  done : Bool
  m_exception : Option Nat
deriving DecidableEq

/-- Embeds the promise_base constructor composed with get_return_object, which
runs immediately when a coroutine is created: reference count one, no parent,
stack bottom pointing at the frame itself, not done, no exception. -/
def promiseCreate (selfId : Nat) : Frame :=
  ⟨1, false, none, selfId, false, none⟩

/-- Embeds promise_base::acquire: increment the uint32 reference count. -/
def Frame.acquire (f : Frame) : Frame :=
  { f with refCount := (f.refCount + 1) % 4294967296 }

/-- Embeds promise_base::release: decrement the uint32 reference count and
destroy the coroutine frame exactly when the count reaches zero. -/
def Frame.release (f : Frame) : Frame :=
  let c := (f.refCount + 4294967295) % 4294967296
  if c = 0 then { f with refCount := c, destroyed := true }
  else { f with refCount := c }

/-- A heap of coroutine frames indexed by frame identifier. -/
abbrev Heap := Nat → Frame

/-- Acquire applied to one frame of a heap. -/
def heapAcquire (h : Heap) (i : Nat) : Heap :=
  fun j => if j = i then (h i).acquire else h j

/-- Release applied to one frame of a heap. -/
def heapRelease (h : Heap) (i : Nat) : Heap :=
  fun j => if j = i then (h i).release else h j

/-- Reference count operations that user code can apply to one frame. -/
inductive FrameOp
  | acquire
  | release
deriving DecidableEq

/-- Apply one reference count operation to a frame. -/
def applyOp (f : Frame) : FrameOp → Frame
  | FrameOp.acquire => f.acquire
  | FrameOp.release => f.release

/-- Apply a list of reference count operations to a frame in order. -/
def applyOps (f : Frame) : List FrameOp → Frame
  | [] => f
  | op :: rest => applyOps (applyOp f op) rest

/-- Well formed operation list: each operation is applied to a live frame whose
counter has not saturated the uint32 range. The source manipulates the counter
from a single thread and only through handles to a live frame, and a live frame
has fewer than two to the thirty two outstanding handles. -/
def wfOps : Frame → List FrameOp → Bool
  | _, [] => true
  | f, op :: rest =>
    !f.destroyed && decide (f.refCount < 4294967295) && wfOps (applyOp f op) rest

/-- A future handle: the m_coroutine member, null when the future is empty. -/
abbrev FutureHandle := Option Nat

/-- Embeds the future copy constructor: copy the handle and acquire the frame
when the handle is not null. -/
def future_copy_ctor (h : Heap) (other : FutureHandle) : FutureHandle × Heap :=
  match other with
  | some i => (some i, heapAcquire h i)
  | none => (none, h)

/-- Embeds the future move constructor: steal the handle and null the source
without touching any reference count. Returns the new handle and the emptied
source handle. -/
def future_move_ctor (other : FutureHandle) : FutureHandle × FutureHandle :=
  (other, none)

/-- Embeds the future destructor: release the frame when the handle is not
null. -/
def future_dtor (h : Heap) (self : FutureHandle) : Heap :=
  match self with
  | some i => heapRelease h i
  | none => h

/-- Embeds future::detach: exchange the handle with null without touching the
reference count. Returns the detached handle and the emptied future. -/
def future_detach (self : FutureHandle) : FutureHandle × FutureHandle :=
  (self, none)

/-- Embeds the future copy assignment operator: early out when the target and
the source are the same object or already hold the same handle, otherwise
release the old frame, copy the handle, and acquire the new frame. The flag
sameObject models address equality of the two future objects. -/
def future_copy_assign (h : Heap) (sameObject : Bool) (self other : FutureHandle) :
    FutureHandle × Heap :=
  if sameObject then (self, h)
  else if self = other then (self, h)
  else
    let h1 := match self with
      | some i => heapRelease h i
      | none => h
    let h2 := match other with
      | some i => heapAcquire h1 i
      | none => h1
    (other, h2)

/-- Embeds the future move assignment operator: early out when the target and
the source are the same object, otherwise release the old frame, steal the
handle, and null the source. Returns the new target handle, the new source
handle, and the heap. -/
def future_move_assign (h : Heap) (sameObject : Bool) (self other : FutureHandle) :
    FutureHandle × FutureHandle × Heap :=
  if sameObject then (self, other, h)
  else
    let h1 := match self with
      | some i => heapRelease h i
      | none => h
    (other, none, h1)

/-- Resume target returned by an await_suspend implementation: either the
coroutine handle of a frame or the no op coroutine handle. -/
inductive ResumeTarget
  | frame (id : Nat)
  | noop
deriving DecidableEq

/-- Embeds final_awaitable::await_suspend: read the parent pointer of the
finished frame and return the parent handle, or the no op handle when the
frame is the root of its chain. The heap is returned as well to record that
the source body only reads m_parent and performs no release or destroy. -/
def final_await_suspend (h : Heap) (cur : Nat) : ResumeTarget × Heap :=
  match (h cur).m_parent with
  | some p => (ResumeTarget.frame p, h)
  | none => (ResumeTarget.noop, h)

/-- Embeds future_awaitable::await_suspend: set the parent of the callee to the
caller, copy the stack bottom pointer from the caller into the callee, and
return the callee handle so control transfers to it. -/
def future_await_suspend (h : Heap) (callee caller : Nat) : ResumeTarget × Heap :=
  let h2 := fun j =>
    if j = callee then
      { h callee with
          m_parent := some caller
          m_stack_bottom := (h caller).m_stack_bottom }
    else h j
  (ResumeTarget.frame callee, h2)

/-- Events emitted by one wake list entry of step four of the worker loop. -/
inductive LoopEvent
  | resumed (id : Nat)
  | released (id : Nat)
deriving DecidableEq

/-- Embeds the loop body of step four of io_context_worker::run for a single
wake list entry: capture the stack bottom of the entry, resume the coroutine
of the entry itself, then release the captured stack bottom when it is done.
The effect of the resume call on the heap is a parameter, since it runs
arbitrary user code. -/
def handleWakeEntry (resumeEffect : Nat → Heap → Heap) (h : Heap) (task : Nat) :
    Heap × List LoopEvent :=
  let sb := (h task).m_stack_bottom
  let h2 := resumeEffect task h
  if (h2 sb).done then
    (heapRelease h2 sb, [LoopEvent.resumed task, LoopEvent.released sb])
  else
    (h2, [LoopEvent.resumed task])

/-- Identifiers of the frames resumed in an event list, in order. -/
def resumedIds : List LoopEvent → List Nat
  | [] => []
  | LoopEvent.resumed i :: rest => i :: resumedIds rest
  | LoopEvent.released _ :: rest => resumedIds rest

/-- Number of release events for a given frame in an event list. -/
def releasedCount : List LoopEvent → Nat → Nat
  | [], _ => 0
  | LoopEvent.released j :: rest, i =>
    (if j = i then 1 else 0) + releasedCount rest i
  | LoopEvent.resumed _ :: rest, i => releasedCount rest i

/-- Heap used to exercise the worker loop on an await chain of two frames:
frame zero is a root and frame one has been linked under frame zero by
future_await_suspend, so the stack bottom of frame one is frame zero. -/
def chainHeap : Heap :=
  (future_await_suspend (fun j => promiseCreate j) 1 0).2

/-- Heap holding a failed child frame: frame one is linked under frame zero,
is done, and carries captured exception seven; frame zero is its parent. -/
def failedChildHeap : Heap := fun j =>
  if j = 1 then
    { promiseCreate 1 with
        m_parent := some 0
        m_stack_bottom := 0
        done := true
        m_exception := some 7 }
  else promiseCreate j

/-- Completion tag observed by the drain loop: the user data of a completion,
null for no op completions. -/
abbrev CompletionTag := Option Nat

/-- Embeds the queue state of a worker touched by schedule and by the drain
step: the wake list m_tasks of promise identifiers and the pending kernel
completions. -/
structure WorkerQueues where
  m_tasks : List Nat
  kernelCompletions : List CompletionTag
deriving DecidableEq

/-- Embeds io_context_worker::schedule taking a promise pointer, Linux branch:
append the promise to the wake list and, when a submission queue entry is
available, post a no op with null user data onto the kernel queue. When
io_uring_get_sqe returns null the no op is silently skipped. -/
def worker_schedule (w : WorkerQueues) (promiseId : Nat) (sqeAvailable : Bool) :
    WorkerQueues :=
  let w1 := { w with m_tasks := w.m_tasks ++ [promiseId] }
  if sqeAvailable then
    { w1 with kernelCompletions := w1.kernelCompletions ++ [none] }
  else w1

/-- Embeds the template io_context_worker::schedule taking a future: detach the
coroutine handle from the future, which does not touch the reference count,
destroy the emptied by value future, and forward the promise pointer to the
pointer overload. Returns the heap and the updated queues. -/
def worker_schedule_future (heap : Heap) (w : WorkerQueues) (i : Nat)
    (sqeAvailable : Bool) : Heap × WorkerQueues :=
  let d := future_detach (some i)
  let heap2 := future_dtor heap d.2
  (heap2, worker_schedule w i sqeAvailable)

/-- Embeds the drain branch of the event loop: a completion with a null tag is
skipped entirely; otherwise the completion record is filled and its promise is
appended to the wake list. -/
def drainCompletion (w : WorkerQueues) (tag : CompletionTag) : WorkerQueues :=
  match tag with
  | some promiseId => { w with m_tasks := w.m_tasks ++ [promiseId] }
  | none => w

/-- The invalid socket constant of tcp_stream.cpp on Linux: the all ones
uintptr value. -/
def invalid_socket : Nat := 18446744073709551615

/-- Embeds the fields of tcp_stream touched by the connect awaitable: the
socket handle and the peer address. -/
structure StreamState where
  m_socket : Nat
  m_address : inet_address
deriving DecidableEq

/-- Embeds the fields of tcp_stream::connect_awaitable read by await_resume on
Linux: the io_uring result stored into the overlapped record, the half open
socket created by await_suspend, and the peer address. -/
structure ConnectAwaitState where
  ovlp_result : Int
  m_socket : Nat
  m_address : inet_address
deriving DecidableEq

/-- Embeds tcp_stream::connect_awaitable::await_resume, Linux branch: on a zero
result close the previous stream socket when it is valid and install the new
socket and peer address into the stream; otherwise close the half open socket
when it is valid, leave the stream untouched, and return the negated errno.
Returns the error code value, the resulting stream state, and the list of
sockets closed. -/
def connect_await_resume (aw : ConnectAwaitState) (st : StreamState) :
    Int × StreamState × List Nat :=
  if aw.ovlp_result = 0 then
    let closed := if st.m_socket ≠ invalid_socket then [st.m_socket] else []
    (0, ⟨aw.m_socket, aw.m_address⟩, closed)
  else
    let closed := if aw.m_socket ≠ invalid_socket then [aw.m_socket] else []
    (-aw.ovlp_result, st, closed)

/-- Outcome of calling a member that may return, rethrow, or terminate the
program. Exceptions are identified by Nat. -/
inductive Outcome (α : Type)
  | ok (v : α)
  | raised (e : Nat)
  | terminated
deriving DecidableEq

/-- Result slot of a promise: the captured exception and the optional stored
value. -/
structure ResultSlot (α : Type) where
  m_exception : Option Nat
  m_value : Option α
deriving DecidableEq

/-- Embeds promise_base::unhandled_exception: store the current exception into
the frame result slot. -/
def unhandled_exception (s : ResultSlot α) (e : Nat) : ResultSlot α :=
  { s with m_exception := some e }

/-- Semantics of a noexcept function in the source language: an exception that
escapes the body calls std::terminate instead of propagating to the caller. -/
def noexceptWrap (o : Outcome α) : Outcome α :=
  match o with
  | Outcome.raised _ => Outcome.terminated
  | x => x

/-- Embeds the result member of the value returning promise: rethrow the
captured exception when present, otherwise hand out the stored value. The
member is not declared noexcept so the rethrown exception reaches the caller. -/
def promise_result_value (s : ResultSlot α) : Outcome (Option α) :=
  match s.m_exception with
  | some e => Outcome.raised e
  | none => Outcome.ok s.m_value

/-- Embeds the body of the result member of the reference returning promise:
rethrow the captured exception when present, otherwise hand out the stored
pointer. -/
def promise_result_ref_body (s : ResultSlot Nat) : Outcome (Option Nat) :=
  match s.m_exception with
  | some e => Outcome.raised e
  | none => Outcome.ok s.m_value

/-- Embeds the result member of the reference returning promise as declared:
the source marks it noexcept, so a rethrow inside it terminates the program
instead of reaching the caller. -/
def promise_result_ref (s : ResultSlot Nat) : Outcome (Option Nat) :=
  noexceptWrap (promise_result_ref_body s)

/-- Embeds the result member of the void promise: rethrow the captured
exception when present, otherwise return. The member is not declared noexcept
so the rethrown exception reaches the caller. -/
def promise_result_void (s : ResultSlot Unit) : Outcome Unit :=
  match s.m_exception with
  | some e => Outcome.raised e
  | none => Outcome.ok ()

/-- Converting a sixteen bit value to network endian and back to host endian
is the identity. -/
theorem to_host_network_endian16 (x : Nat) (h : x < 65536) :
    to_host_endian16 (to_network_endian16 x) = x := by
  unfold to_host_endian16 to_network_endian16
  omega

/-- The IPv4 round trip through inet_address does hold: the four stored bytes
come back unchanged and the port survives the double endian conversion. -/
theorem inet_roundtrip_v4 (b0 b1 b2 b3 port : Nat) (hp : port < 65536) :
    inet_address.ip_address (inet_address.mk_ip_port (ip_address.mk4 b0 b1 b2 b3) port)
      = ip_address.mk4 b0 b1 b2 b3
    ∧ (inet_address.mk_ip_port (ip_address.mk4 b0 b1 b2 b3) port).port = port := by
  constructor
  · simp [inet_address.mk_ip_port, inet_address.ip_address, ip_address.mk4, AF_INET]
  · simpa [inet_address.mk_ip_port, inet_address.port, ip_address.mk4] using
      to_host_network_endian16 port hp

/-- Reference count after release is the uint32 decrement of the count. -/
theorem Frame.release_refCount (f : Frame) :
    (f.release).refCount = (f.refCount + 4294967295) % 4294967296 := by
  simp only [Frame.release]
  split <;> rfl

/-- Release destroys the frame exactly when the decremented count is zero or
the frame was already destroyed. -/
theorem Frame.release_destroyed (f : Frame) :
    (f.release).destroyed
      = (decide ((f.refCount + 4294967295) % 4294967296 = 0) || f.destroyed) := by
  simp only [Frame.release]
  split
  next h => simp [h]
  next h => simp [h]

/-- Along any well formed operation sequence a frame whose reference count is
in the live range keeps its count at least one and inside the uint32 range as
long as it has not been destroyed. -/
theorem applyOps_live_refCount (ops : List FrameOp) (f : Frame)
    (hinv : f.destroyed = false → 1 ≤ f.refCount ∧ f.refCount < 4294967296)
    (hwf : wfOps f ops = true) :
    (applyOps f ops).destroyed = false →
      1 ≤ (applyOps f ops).refCount ∧ (applyOps f ops).refCount < 4294967296 := by
  induction ops generalizing f with
  | nil => simpa [applyOps] using hinv
  | cons op rest ih =>
    simp only [wfOps, Bool.and_eq_true, decide_eq_true_eq, Bool.not_eq_true'] at hwf
    obtain ⟨⟨hdes, hlt⟩, hrest⟩ := hwf
    have h1 := hinv hdes
    refine ih (applyOp f op) ?_ hrest
    intro hlive2
    cases op with
    | acquire =>
      simp only [applyOp, Frame.acquire]
      omega
    | release =>
      simp only [applyOp] at hlive2 ⊢
      rw [Frame.release_refCount]
      rw [Frame.release_destroyed] at hlive2
      simp only [Bool.or_eq_false_iff, decide_eq_false_iff_not] at hlive2
      obtain ⟨hc, _⟩ := hlive2
      omega

/-- Claim C1, counterexample: frame one has been linked under root frame zero
by a task await, so its stack bottom is frame zero; when frame one is the wake
list entry, taken from the list after an IO completion, the worker resumes
frame one itself and not the stack bottom frame, refuting the statement that
the scheduler never directly resumes an interior frame. -/
theorem claim_C1_counterexample :
    resumedIds (handleWakeEntry (fun _ h => h) chainHeap 1).2 = [1]
    ∧ (chainHeap 1).m_stack_bottom = 0
    ∧ resumedIds (handleWakeEntry (fun _ h => h) chainHeap 1).2
        ≠ [(chainHeap 1).m_stack_bottom] := by
  decide

/-- Claim C1, amended: for every wake list entry the worker resumes the
coroutine of the entry frame itself, which coincides with the stack bottom
exactly when the entry records itself as its stack bottom, as frames enqueued
by schedule do; after the resume returns, the worker releases the stack bottom
captured before the resume exactly once when it is done and not at all
otherwise. -/
theorem claim_C1_resume_and_release (resumeEffect : Nat → Heap → Heap)
    (h : Heap) (task : Nat) :
    resumedIds (handleWakeEntry resumeEffect h task).2 = [task]
    ∧ releasedCount (handleWakeEntry resumeEffect h task).2 (h task).m_stack_bottom
        = (if ((resumeEffect task h) (h task).m_stack_bottom).done then 1 else 0)
    ∧ ((h task).m_stack_bottom = task →
        resumedIds (handleWakeEntry resumeEffect h task).2
          = [(h task).m_stack_bottom]) := by
  by_cases hdone : ((resumeEffect task h) ((h task).m_stack_bottom)).done
  · refine ⟨?_, ?_, ?_⟩
    · simp [handleWakeEntry, hdone, resumedIds]
    · simp [handleWakeEntry, hdone, releasedCount, resumedIds]
    · intro hsb
      rw [hsb]
      simp [handleWakeEntry, hdone, resumedIds]
  · refine ⟨?_, ?_, ?_⟩
    · simp [handleWakeEntry, hdone, resumedIds]
    · simp [handleWakeEntry, hdone, releasedCount, resumedIds]
    · intro hsb
      rw [hsb]
      simp [handleWakeEntry, hdone, resumedIds]

/-- Witness for the amended claim C1: a root frame scheduled directly is
resumed as its own stack bottom. -/
theorem claim_C1_resume_and_release_witness :
    resumedIds (handleWakeEntry (fun _ h => h) (fun j => promiseCreate j) 0).2 = [0] :=
  (claim_C1_resume_and_release (fun _ h => h) (fun j => promiseCreate j) 0).2.2 rfl

/-- Claim C2, evaluated at the failing input: storing the IPv6 address with
groups one and zeros, written one double colon, with port eighty into an
inet_address and reading it back yields an address whose first group has been
byte swapped to two hundred fifty six, so the claimed round trip equality
fails, while the port does round trip. The code bug is that the accessor feeds
the stored network endian groups back into the host endian constructor. -/
theorem claim_C2_roundtrip_fails :
    ip_address.beq
        (inet_address.ip_address
          (inet_address.mk_ip_port (ip_address.mk6 1 0 0 0 0 0 0 0) 80))
        (ip_address.mk6 1 0 0 0 0 0 0 0) = false
    ∧ (inet_address.mk_ip_port (ip_address.mk6 1 0 0 0 0 0 0 0) 80).port = 80
    ∧ inet_address.ip_address
        (inet_address.mk_ip_port (ip_address.mk6 1 0 0 0 0 0 0 0) 80)
      = ip_address.mk6 256 0 0 0 0 0 0 0 := by
  decide

/-- Claim C3: a promise is created with reference count exactly one; along any
well formed operation sequence a live frame keeps reference count at least
one; acquire increments the count by one; release decrements it by one and
destroys the coroutine frame exactly when the count reaches zero; copying a
non null future increments the referenced frame count and destroying a non
null future decrements it. -/
theorem claim_C3_refcount (ops : List FrameOp) (selfId : Nat)
    (hwf : wfOps (promiseCreate selfId) ops = true)
    (heap : Heap) (i : Nat)
    (hlive : (heap i).destroyed = false)
    (hone : 1 ≤ (heap i).refCount)
    (hlt : (heap i).refCount < 4294967295) :
    (promiseCreate selfId).refCount = 1
    ∧ ((applyOps (promiseCreate selfId) ops).destroyed = false →
        1 ≤ (applyOps (promiseCreate selfId) ops).refCount)
    ∧ ((heap i).acquire).refCount = (heap i).refCount + 1
    ∧ ((heap i).release).refCount = (heap i).refCount - 1
    ∧ (((heap i).release).destroyed = true ↔ (heap i).refCount = 1)
    ∧ (((future_copy_ctor heap (some i)).2) i).refCount = (heap i).refCount + 1
    ∧ ((future_dtor heap (some i)) i).refCount = (heap i).refCount - 1 := by
  have hacq : ((heap i).acquire).refCount = (heap i).refCount + 1 := by
    simp only [Frame.acquire]
    omega
  have hrel : ((heap i).release).refCount = (heap i).refCount - 1 := by
    rw [Frame.release_refCount]
    omega
  refine ⟨rfl, ?_, hacq, hrel, ?_, ?_, ?_⟩
  · intro hl
    have hstart : (promiseCreate selfId).destroyed = false →
        1 ≤ (promiseCreate selfId).refCount
        ∧ (promiseCreate selfId).refCount < 4294967296 := by
      intro _
      exact ⟨le_refl 1, show (1 : Nat) < 4294967296 by norm_num⟩
    exact (applyOps_live_refCount ops (promiseCreate selfId) hstart hwf hl).1
  · rw [Frame.release_destroyed]
    simp only [hlive, Bool.or_false, decide_eq_true_eq]
    omega
  · have hc : ((future_copy_ctor heap (some i)).2) i = (heap i).acquire := by
      simp [future_copy_ctor, heapAcquire]
    rw [hc]
    exact hacq
  · have hd : (future_dtor heap (some i)) i = (heap i).release := by
      simp [future_dtor, heapRelease]
    rw [hd]
    exact hrel

/-- Witness for claim C3 at a freshly created frame and the operation sequence
acquire then release. -/
theorem claim_C3_refcount_witness :
    ((promiseCreate 0).acquire).refCount = (promiseCreate 0).refCount + 1 :=
  (claim_C3_refcount [FrameOp.acquire, FrameOp.release] 0 (by decide)
    (fun j => promiseCreate j) 0 rfl (by decide) (by decide)).2.2.1

/-- Claim C4, evaluated at the failing input: after unhandled_exception stores
exception seven, the value and void promise variants rethrow it to the caller,
but the reference variant is declared noexcept in the source while calling
rethrow inside, so it terminates the program instead of rethrowing; the final
suspend of the failed child frame still hands control to the parent. -/
theorem claim_C4_exception_paths :
    promise_result_value (unhandled_exception (⟨none, none⟩ : ResultSlot Nat) 7)
      = Outcome.raised 7
    ∧ promise_result_void (unhandled_exception (⟨none, none⟩ : ResultSlot Unit) 7)
      = Outcome.raised 7
    ∧ promise_result_ref (unhandled_exception (⟨none, none⟩ : ResultSlot Nat) 7)
      = Outcome.terminated
    ∧ promise_result_ref (unhandled_exception (⟨none, none⟩ : ResultSlot Nat) 7)
      ≠ Outcome.raised 7
    ∧ (final_await_suspend failedChildHeap 1).1 = ResumeTarget.frame 0 := by
  decide

/-- Claim C5: the final suspend awaiter returns the parent frame handle when
the finished frame has a parent and the no op coroutine handle when it is the
stack bottom of its chain, and it neither destroys nor releases any frame. -/
theorem claim_C5_final_suspend (h : Heap) (cur p : Nat) :
    ((h cur).m_parent = some p →
      (final_await_suspend h cur).1 = ResumeTarget.frame p)
    ∧ ((h cur).m_parent = none →
      (final_await_suspend h cur).1 = ResumeTarget.noop)
    ∧ (final_await_suspend h cur).2 = h := by
  unfold final_await_suspend
  cases hp : (h cur).m_parent <;> simp [hp]

/-- Witness for claim C5: the final suspend of a root frame yields the no op
handle. -/
theorem claim_C5_final_suspend_witness :
    (final_await_suspend (fun j => promiseCreate j) 0).1 = ResumeTarget.noop :=
  (claim_C5_final_suspend (fun j => promiseCreate j) 0 0).2.1 rfl

/-- Claim C6, counterexample: when the submission queue has no free entry, the
Linux schedule appends the promise to the wake list but posts nothing onto the
kernel queue, so the claimed unconditional no op post fails at this input. -/
theorem claim_C6_counterexample :
    (worker_schedule ⟨[], []⟩ 5 false).m_tasks = [5]
    ∧ (worker_schedule ⟨[], []⟩ 5 false).kernelCompletions = [] := by
  decide

/-- Claim C6, amended: schedule detaches the coroutine handle without touching
any reference count, appends the promise pointer to the wake list, and posts a
no op completion carrying a null tag onto the kernel queue whenever a
submission queue entry is available, the no op being silently skipped on
submission queue exhaustion; the drain step skips any completion whose tag is
null, so the no op never enqueues a task. -/
theorem claim_C6_schedule (heap : Heap) (w : WorkerQueues) (i : Nat)
    (sqe : Bool) (hsqe : sqe = true) :
    (worker_schedule_future heap w i sqe).1 = heap
    ∧ (worker_schedule_future heap w i sqe).2.m_tasks = w.m_tasks ++ [i]
    ∧ (worker_schedule w i sqe).kernelCompletions = w.kernelCompletions ++ [none]
    ∧ drainCompletion w none = w := by
  subst hsqe
  refine ⟨rfl, ?_, ?_, rfl⟩ <;>
    simp [worker_schedule_future, worker_schedule, future_detach, future_dtor]

/-- Witness for the amended claim C6 on empty queues. -/
theorem claim_C6_schedule_witness :
    (worker_schedule ⟨[], []⟩ 7 true).kernelCompletions = [none] :=
  (claim_C6_schedule (fun j => promiseCreate j) ⟨[], []⟩ 7 true rfl).2.2.1

/-- Claim C7: when the awaited asynchronous connect completes with an error,
await_resume returns a nonzero error code, leaves the stream socket and peer
address unchanged, and closes the valid half open socket created for the
attempt; only on success does it install the new socket and peer address into
the stream. -/
theorem claim_C7_connect_error (aw : ConnectAwaitState) (st : StreamState)
    (herr : aw.ovlp_result ≠ 0) (hvalid : aw.m_socket ≠ invalid_socket) :
    (connect_await_resume aw st).1 ≠ 0
    ∧ (connect_await_resume aw st).2.1 = st
    ∧ (connect_await_resume aw st).2.2 = [aw.m_socket]
    ∧ (∀ aw2 : ConnectAwaitState, aw2.ovlp_result = 0 →
        (connect_await_resume aw2 st).2.1 = ⟨aw2.m_socket, aw2.m_address⟩) := by
  refine ⟨?_, ?_, ?_, ?_⟩
  · simp [connect_await_resume, herr, neg_eq_zero]
  · simp [connect_await_resume, herr]
  · simp [connect_await_resume, herr, hvalid]
  · intro aw2 h0
    simp [connect_await_resume, h0]

/-- Witness for claim C7: a connect failing with errno one hundred eleven,
connection refused, against an empty stream. -/
theorem claim_C7_connect_error_witness :
    (connect_await_resume
        ⟨-111, 7, inet_address.mk_ip_port (ip_address.mk4 127 0 0 1) 80⟩
        ⟨invalid_socket, inet_address.mk_ip_port (ip_address.mk4 127 0 0 1) 80⟩).2.1
      = ⟨invalid_socket, inet_address.mk_ip_port (ip_address.mk4 127 0 0 1) 80⟩ :=
  (claim_C7_connect_error
    ⟨-111, 7, inet_address.mk_ip_port (ip_address.mk4 127 0 0 1) 80⟩
    ⟨invalid_socket, inet_address.mk_ip_port (ip_address.mk4 127 0 0 1) 80⟩
    (by decide) (by decide)).2.1

/-- Claim C8: an io_context constructed with worker count zero or by the
default constructor has worker count equal to the maximum of one and the
number of logical cores, and a nonzero requested count is used as given. -/
theorem claim_C8_worker_count (count cores : Nat) (h : count ≠ 0) :
    io_context_worker_count_of 0 cores = max 1 cores
    ∧ io_context_worker_count_of count cores = count
    ∧ io_context_worker_count_default cores = max 1 cores := by
  refine ⟨by simp [io_context_worker_count_of], ?_, rfl⟩
  simp [io_context_worker_count_of, h]

/-- Witness for claim C8 at requested count three and four logical cores. -/
theorem claim_C8_worker_count_witness :
    io_context_worker_count_of 0 4 = max 1 4
    ∧ io_context_worker_count_of 3 4 = 3
    ∧ io_context_worker_count_default 4 = max 1 4 :=
  claim_C8_worker_count 3 4 (by decide)

/-- Claim C9: the Linux worker destructor calls io_uring_queue_exit on the
freshly malloced uninitialised buffer and frees that buffer, while the ring
stored in m_muxer is never passed to io_uring_queue_exit and never freed by
the destructor. -/
theorem claim_C9_dtor_fresh_buffer (storedRing freshBuf : Nat)
    (hne : freshBuf ≠ storedRing) :
    DtorAction.queueExit freshBuf ∈ worker_dtor_linux freshBuf
    ∧ DtorAction.freeBuf freshBuf ∈ worker_dtor_linux freshBuf
    ∧ DtorAction.queueExit storedRing ∉ worker_dtor_linux freshBuf
    ∧ DtorAction.freeBuf storedRing ∉ worker_dtor_linux freshBuf := by
  refine ⟨?_, ?_, ?_, ?_⟩ <;>
    simp [worker_dtor_linux, Ne.symm hne]

/-- Witness for claim C9 with the stored ring at address zero and the fresh
buffer at address one. -/
theorem claim_C9_dtor_fresh_buffer_witness :
    DtorAction.queueExit 0 ∉ worker_dtor_linux 1 :=
  (claim_C9_dtor_fresh_buffer 0 1 (by decide)).2.2.1

/-- Claim C10, counterexample: self move assignment takes the early out and
the moved from future still holds its handle, and a move assignment between
two distinct futures that reference the same frame releases that frame, so the
claim as stated fails on both counts at these inputs. -/
theorem claim_C10_counterexample :
    (future_move_assign (fun j => promiseCreate j) true (some 0) (some 0)).2.1 = some 0
    ∧ ((future_move_assign (fun j => (promiseCreate j).acquire) false
          (some 0) (some 0)).2.2 0).refCount = 1
    ∧ ((fun j => (promiseCreate j).acquire) 0).refCount = 2 := by
  decide

/-- Claim C10, amended: self copy assignment and copy assignment between
futures holding the same handle take the early outs and change nothing; move
construction transfers the handle, nulls the source and touches no reference
count; self move assignment is an early out that leaves the future unchanged;
move assignment between distinct future objects transfers the handle, nulls
the source, and leaves the reference count of the source frame unchanged when
the two handles differ, while aliased handles release the common frame once. -/
theorem claim_C10_future_assign (heap : Heap) (self other : FutureHandle)
    (i : Nat) :
    (future_copy_assign heap true self self).1 = self
    ∧ (future_copy_assign heap true self self).2 = heap
    ∧ (future_copy_assign heap false self self).1 = self
    ∧ (future_copy_assign heap false self self).2 = heap
    ∧ (future_move_ctor other).1 = other
    ∧ (future_move_ctor other).2 = none
    ∧ (future_move_assign heap true self self).1 = self
    ∧ (future_move_assign heap true self self).2.1 = self
    ∧ (self ≠ some i →
        ((future_move_assign heap false self (some i)).1 = some i
        ∧ (future_move_assign heap false self (some i)).2.1 = none
        ∧ ((future_move_assign heap false self (some i)).2.2 i).refCount
            = (heap i).refCount))
    ∧ (future_move_assign heap false (some i) (some i)).2.2 i
        = (heap i).release := by
  refine ⟨rfl, rfl, ?_, ?_, rfl, rfl, rfl, rfl, ?_, ?_⟩
  · simp [future_copy_assign]
  · simp [future_copy_assign]
  · intro hne
    refine ⟨?_, ?_, ?_⟩
    · simp [future_move_assign]
    · simp [future_move_assign]
    · cases self with
      | none => simp [future_move_assign]
      | some j =>
        have hj : i ≠ j := by
          intro hij
          exact hne (by rw [hij])
        simp [future_move_assign, heapRelease, hj]
  · simp [future_move_assign, heapRelease]

/-- Witness for the amended claim C10: moving a future into an empty future
leaves the count of the referenced frame untouched. -/
theorem claim_C10_future_assign_witness :
    ((future_move_assign (fun j => promiseCreate j) false none (some 1)).2.2 1).refCount
      = ((fun j => promiseCreate j) 1).refCount :=
  ((claim_C10_future_assign (fun j => promiseCreate j) none (some 1) 1
    ).2.2.2.2.2.2.2.2.1 (by decide)).2.2

end Ossia
